import Mathlib

/-!
Formal embedding of the viewport-framing engine of this repository:
the functions `fetchElevation`, `lookAt` and `lookAtWithPadding`
(src/lib/state.ts, appended look-at module) and
`MapController.frameEntities` (src/lib/map-controller.ts).

JavaScript numbers are modelled as real numbers.  The elevation service
is modelled as a function from a coordinate pair to a response that
either throws or returns a list of elevation results.  A call that
throws a JavaScript `TypeError` (reading `locations[0].lat` of an empty
array) is modelled as an `Except.error`.
-/

namespace Framing

/-- A geographic location: `{ lat: number; lng: number; alt?: number }`. -/
structure Location where
  lat : ℝ
  lng : ℝ
  alt : Option ℝ := none

/-- The camera pose returned by `lookAt` / `lookAtWithPadding`:
`{ lat, lng, altitude, range, tilt, heading }`. -/
structure Camera where
  lat : ℝ
  lng : ℝ
  altitude : ℝ
  range : ℝ
  tilt : ℝ
  heading : ℝ

/-- Outcome of one `elevator.getElevationForLocations` call: the promise
either rejects (`throws`) or resolves with a list of result elevations. -/
inductive ElevationResponse where
  | throws : ElevationResponse
  | resolves : List ℝ → ElevationResponse

/-- The elevation service, abstracted as the response it produces for a
given `(lat, lng)` query. -/
def Elevator : Type := ℝ → ℝ → ElevationResponse

/-- Ways a framing call can fail.  The code itself only ever produces
`typeError` (the JavaScript `TypeError` thrown by `locations[0].lat` on an
empty array).  The constructors `emptyInputError` and `invalidPaddingError`
name the error taxonomy of the specification so that claims about it can be
stated; no code path of the source produces them. -/
inductive FrameError where
  | typeError : FrameError
  | emptyInputError : FrameError
  | invalidPaddingError : FrameError

/-- The four-sided fractional padding `[top, right, bottom, left]`. -/
structure Padding where
  top : ℝ
  right : ℝ
  bottom : ℝ
  left : ℝ

/-- `fetchElevation` (state.ts lines 293-311): returns `results[0].elevation`
when the response resolves with at least one result, and `0` when the result
list is empty or the service throws. -/
def fetchElevation (lat lng : ℝ) (elevator : Elevator) : ℝ :=
  match elevator lat lng with
  | .throws => 0
  | .resolves [] => 0
  | .resolves (r :: _) => r

/-- `const degToRad = Math.PI / 180`. -/
noncomputable def degToRad : ℝ := Real.pi / 180

/-- `const earthRadius = 6371000` (meters). -/
def earthRadius : ℝ := 6371000

/-- JavaScript `Math.atan2 y x` on finite inputs. -/
noncomputable def atan2 (y x : ℝ) : ℝ :=
  if 0 < x then Real.arctan (y / x)
  else if x < 0 ∧ 0 ≤ y then Real.arctan (y / x) + Real.pi
  else if x < 0 ∧ y < 0 then Real.arctan (y / x) - Real.pi
  else if x = 0 ∧ 0 < y then Real.pi / 2
  else if x = 0 ∧ y < 0 then -(Real.pi / 2)
  else 0

/-- The local `haversine` helper, identical in `lookAt` (lines 356-365) and
`lookAtWithPadding` (lines 455-464): angular distance in radians. -/
noncomputable def haversine (lat1 lng1 lat2 lng2 : ℝ) : ℝ :=
  let dLat := (lat2 - lat1) * degToRad
  let dLng := (lng2 - lng1) * degToRad
  let a := Real.sin (dLat / 2) ^ 2 +
    Real.cos (lat1 * degToRad) * Real.cos (lat2 * degToRad) *
      Real.sin (dLng / 2) ^ 2
  2 * atan2 (Real.sqrt a) (Real.sqrt (1 - a))

/-- The `minLat` accumulation (`if (loc.lat < minLat) minLat = loc.lat`,
folded over all locations).  The source starts from `Infinity`; for the
non-empty lists on which it is reached this equals folding `min` over the
whole list starting from the head's latitude. -/
noncomputable def minLatOf (l0 : Location) (locations : List Location) : ℝ :=
  locations.foldl (fun m loc => min m loc.lat) l0.lat

/-- The `maxLat` accumulation, as `minLatOf` with `max` (source starts from
`-Infinity`). -/
noncomputable def maxLatOf (l0 : Location) (locations : List Location) : ℝ :=
  locations.foldl (fun m loc => max m loc.lat) l0.lat

/-- The `minLng` accumulation. -/
noncomputable def minLngOf (l0 : Location) (locations : List Location) : ℝ :=
  locations.foldl (fun m loc => min m loc.lng) l0.lng

/-- The `maxLng` accumulation. -/
noncomputable def maxLngOf (l0 : Location) (locations : List Location) : ℝ :=
  locations.foldl (fun m loc => max m loc.lng) l0.lng

/-- `const centerLat = (minLat + maxLat) / 2`. -/
noncomputable def centerLat (l0 : Location) (locations : List Location) : ℝ :=
  (minLatOf l0 locations + maxLatOf l0 locations) / 2

/-- `const centerLng = (minLng + maxLng) / 2`. -/
noncomputable def centerLng (l0 : Location) (locations : List Location) : ℝ :=
  (minLngOf l0 locations + maxLngOf l0 locations) / 2

/-- The `maxAngularDistance` accumulation: starting from `0`, take the
maximum of the haversine distance from the bounding-box center to each
location (`if (d > maxAngularDistance) maxAngularDistance = d`). -/
noncomputable def maxAngularDistance (cLat cLng : ℝ) (locations : List Location) : ℝ :=
  locations.foldl (fun m loc => max m (haversine cLat cLng loc.lat loc.lng)) 0

/-- The altitude average: `sumAlt += ALTITUDE + (loc.alt ?? 0)` over all
locations, then `countAlt > 0 ? sumAlt / countAlt : 0`. -/
noncomputable def lookAtAltitude (altitude0 : ℝ) (locations : List Location) : ℝ :=
  let sumAlt := locations.foldl (fun s loc => s + (altitude0 + loc.alt.getD 0)) 0
  let countAlt := locations.length
  if 0 < countAlt then sumAlt / (countAlt : ℝ) else 0

/-- `const visibleWidthFraction = 1 - padLeft - padRight`. -/
noncomputable def visibleWidthFraction (p : Padding) : ℝ := 1 - p.left - p.right

/-- `const visibleHeightFraction = 1 - padTop - padBottom`. -/
noncomputable def visibleHeightFraction (p : Padding) : ℝ := 1 - p.top - p.bottom

/-- `const scale = Math.max(1 / visibleWidthFraction, 1 / visibleHeightFraction)`. -/
noncomputable def scale (p : Padding) : ℝ :=
  max (1 / visibleWidthFraction p) (1 / visibleHeightFraction p)

/-- `const offsetX = (padLeft - padRight) / 2`. -/
noncomputable def offsetX (p : Padding) : ℝ := (p.left - p.right) / 2

/-- `const offsetY = (padTop - padBottom) / 2`. -/
noncomputable def offsetY (p : Padding) : ℝ := (p.top - p.bottom) / 2

/-- The `fullHorizontalDistance` constant of `lookAtWithPadding`:
`maxDistance * 2 * scale` where `maxDistance = maxAngularDistance * earthRadius`
(the ground distance the full viewport must span). -/
noncomputable def fullHorizontalDistance (l0 : Location) (locations : List Location)
    (p : Padding) : ℝ :=
  maxAngularDistance (centerLat l0 locations) (centerLng l0 locations) locations *
    earthRadius * 2 * scale p

/-- `lookAt` (state.ts lines 313-398).  On an empty list the very first
statement `locations[0].lat` throws a `TypeError`. -/
noncomputable def lookAt (locations : List Location) (elevator : Elevator)
    (heading : ℝ) : Except FrameError Camera :=
  match locations with
  | [] => .error .typeError
  | l0 :: _ =>
    let ALTITUDE := fetchElevation l0.lat l0.lng elevator
    let cLat := centerLat l0 locations
    let cLng := centerLng l0 locations
    let alt := lookAtAltitude ALTITUDE locations
    let maxAng := maxAngularDistance cLat cLng locations
    let maxDistance := maxAng * earthRadius
    let horizontalDistance := maxDistance * 2
    let targetTiltDeg : ℝ := 60
    let verticalDistance := horizontalDistance / Real.tan (targetTiltDeg * degToRad)
    let slantRange := Real.sqrt (horizontalDistance ^ 2 + verticalDistance ^ 2)
    .ok { lat := cLat, lng := cLng, altitude := alt, range := slantRange,
          tilt := targetTiltDeg, heading := heading }

/-- `lookAtWithPadding` (state.ts lines 412-548).  On an empty list the very
first statement `locations[0].lat` throws a `TypeError`. -/
noncomputable def lookAtWithPadding (locations : List Location) (elevator : Elevator)
    (heading : ℝ) (padding : Padding) : Except FrameError Camera :=
  match locations with
  | [] => .error .typeError
  | l0 :: _ =>
    let ALTITUDE := fetchElevation l0.lat l0.lng elevator
    let cLat := centerLat l0 locations
    let cLng := centerLng l0 locations
    let alt := lookAtAltitude ALTITUDE locations
    let maxAng := maxAngularDistance cLat cLng locations
    let maxDistance := maxAng * earthRadius
    let contentHorizontalDistance := maxDistance * 2
    let fullHorizontalDistance := contentHorizontalDistance * scale padding
    let offsetGeoScreenX := offsetX padding * fullHorizontalDistance
    let offsetGeoScreenY := offsetY padding * fullHorizontalDistance
    let shiftVectorX := -offsetGeoScreenX
    let shiftVectorY := offsetGeoScreenY
    let headingRad := heading * degToRad
    let cosH := Real.cos headingRad
    let sinH := Real.sin headingRad
    let shiftEastMeters := shiftVectorX * cosH - shiftVectorY * sinH
    let shiftNorthMeters := shiftVectorX * sinH + shiftVectorY * cosH
    let shiftLatDeg := shiftNorthMeters / 111000
    let shiftLngDeg := shiftEastMeters / (111000 * Real.cos (cLat * degToRad))
    let newCenterLat := cLat + shiftLatDeg
    let newCenterLng := cLng + shiftLngDeg
    let targetTiltDeg : ℝ := 60
    let verticalDistance := fullHorizontalDistance / Real.tan (targetTiltDeg * degToRad)
    let slantRange := Real.sqrt (fullHorizontalDistance ^ 2 + verticalDistance ^ 2)
    .ok { lat := newCenterLat, lng := newCenterLng, altitude := alt,
          range := slantRange, tilt := targetTiltDeg, heading := heading }

/-- The camera argument of `map.flyCameraTo` in `MapController.flyTo`
(map-controller.ts lines 78-93): center, range, heading, tilt, roll. -/
structure FlyToCamera where
  centerLat : ℝ
  centerLng : ℝ
  centerAltitude : ℝ
  range : ℝ
  heading : ℝ
  tilt : ℝ
  roll : ℝ

/-- `MapController.frameEntities` (map-controller.ts lines 100-125).
Returns `none` when the entity list is empty (early `return`, no animation,
the elevator is never constructed); otherwise calls `lookAtWithPadding` on
the entity positions with heading `0` and flies to the result with
`range + 1000` and roll `0`.  Marker positions carry `lat`/`lng` (their
`altitude` property is not named `alt`), so the locations passed down have
no `alt` field. -/
noncomputable def frameEntities (entities : List (ℝ × ℝ)) (padding : Padding)
    (elevator : Elevator) : Except FrameError (Option FlyToCamera) :=
  if entities.length = 0 then .ok none
  else
    match lookAtWithPadding
        (entities.map fun pos => { lat := pos.1, lng := pos.2 }) elevator 0 padding with
    | .error err => .error err
    | .ok c =>
      .ok (some { centerLat := c.lat, centerLng := c.lng, centerAltitude := c.altitude,
                  range := c.range + 1000, heading := c.heading, tilt := c.tilt,
                  roll := 0 })

/-- Whether a framing call returned a camera pose (rather than throwing). -/
def returnsPose : Except FrameError Camera → Bool
  | .ok _ => true
  | .error _ => false

/-- The error produced by a framing call, when it failed. -/
def errorKind : Except FrameError Camera → Option FrameError
  | .ok _ => none
  | .error err => some err

/-- The range of the returned pose, when a pose was returned. -/
noncomputable def rangeOf : Except FrameError Camera → Option ℝ
  | .ok c => some c.range
  | .error _ => none

/-- A concrete elevation service whose lookups always resolve with no
results (so `fetchElevation` yields `0`); used for concrete instances. -/
def elevEmpty : Elevator := fun _ _ => .resolves []

/-- With zero padding both visible fractions are `1`, so the scale is `1`. -/
theorem scale_zeroPad : scale ⟨0, 0, 0, 0⟩ = 1 := by
  simp [scale, visibleWidthFraction, visibleHeightFraction]

/-- With zero padding the horizontal screen offset is `0`. -/
theorem offsetX_zeroPad : offsetX ⟨0, 0, 0, 0⟩ = 0 := by
  simp [offsetX]

/-- With zero padding the vertical screen offset is `0`. -/
theorem offsetY_zeroPad : offsetY ⟨0, 0, 0, 0⟩ = 0 := by
  simp [offsetY]

/-- C1: for every non-empty list of locations, every heading, and every
elevation result, `lookAtWithPadding` with padding `[0, 0, 0, 0]` returns
exactly the same lat, lng, altitude, range, tilt, and heading as `lookAt`
with the same locations, elevator, and heading. -/
theorem lookAtWithPadding_zeroPad_eq_lookAt (locations : List Location)
    (elevator : Elevator) (heading : ℝ) (hne : locations ≠ []) :
    lookAtWithPadding locations elevator heading ⟨0, 0, 0, 0⟩ =
      lookAt locations elevator heading := by
  match locations with
  | [] => exact absurd rfl hne
  | l0 :: rest =>
    simp only [lookAtWithPadding, lookAt, scale_zeroPad, offsetX_zeroPad, offsetY_zeroPad]
    ring_nf

/-- Witness for C1 at a concrete one-point input. -/
theorem lookAtWithPadding_zeroPad_eq_lookAt_witness :
    lookAtWithPadding [⟨0, 0, none⟩] elevEmpty 0 ⟨0, 0, 0, 0⟩ =
      lookAt [⟨0, 0, none⟩] elevEmpty 0 :=
  lookAtWithPadding_zeroPad_eq_lookAt [⟨0, 0, none⟩] elevEmpty 0 (by simp)

/-- C2 (amended): `lookAtWithPadding` performs no padding validation.  Even
when `1 - left - right ≤ 0` or `1 - top - bottom ≤ 0` it raises no error and
still returns a camera pose, computed from the unvalidated scale. -/
theorem degenerate_padding_no_error (l0 : Location) (rest : List Location)
    (elevator : Elevator) (heading : ℝ) (p : Padding)
    (hp : visibleWidthFraction p ≤ 0 ∨ visibleHeightFraction p ≤ 0) :
    ∃ c, lookAtWithPadding (l0 :: rest) elevator heading p = .ok c := by
  exact ⟨_, rfl⟩

/-- Witness for the amended C2 at the specification's own example
`left = 0.6`, `right = 0.5`. -/
theorem degenerate_padding_no_error_witness :
    ∃ c, lookAtWithPadding [⟨0, 0, none⟩] elevEmpty 0 ⟨0, 0.5, 0, 0.6⟩ = .ok c :=
  degenerate_padding_no_error ⟨0, 0, none⟩ [] elevEmpty 0 ⟨0, 0.5, 0, 0.6⟩
    (Or.inl (by norm_num [visibleWidthFraction]))

/-- Counterexample to C2 as stated: with `left = 0.6`, `right = 0.5` the
call does return a camera pose (it raises nothing). -/
theorem invalidPadding_returns_pose_cex :
    returnsPose (lookAtWithPadding [⟨0, 0, none⟩] elevEmpty 0 ⟨0, 0.5, 0, 0.6⟩) = true :=
  rfl

/-- C3 (amended): both functions fail on an empty location list, but with
the JavaScript `TypeError` thrown by `locations[0].lat`, not with a
structured `EmptyInputError` (which does not exist in the code). -/
theorem empty_input_fails_typeError (elevator : Elevator) (heading : ℝ) (p : Padding) :
    lookAtWithPadding [] elevator heading p = .error .typeError ∧
    lookAt [] elevator heading = .error .typeError :=
  ⟨rfl, rfl⟩

/-- Counterexample to C3 as stated: the error produced on an empty list is
the `TypeError`, which is not the `EmptyInputError` the claim names. -/
theorem empty_input_error_kind_cex :
    errorKind (lookAtWithPadding [] elevEmpty 0 ⟨0, 0, 0, 0⟩) = some .typeError ∧
    FrameError.typeError ≠ FrameError.emptyInputError :=
  ⟨rfl, fun h => FrameError.noConfusion h⟩

/-- C4: for every padding with positive visible fractions, the resolver used
by `lookAtWithPadding` computes
`scale = max (1/(1 - left - right)) (1/(1 - top - bottom))`,
`offsetX = (left - right)/2` and `offsetY = (top - bottom)/2`. -/
theorem padding_resolver_formulas (p : Padding)
    (hw : 0 < visibleWidthFraction p) (hh : 0 < visibleHeightFraction p) :
    scale p = max (1 / (1 - p.left - p.right)) (1 / (1 - p.top - p.bottom)) ∧
    offsetX p = (p.left - p.right) / 2 ∧
    offsetY p = (p.top - p.bottom) / 2 :=
  ⟨rfl, rfl, rfl⟩

/-- Witness for C4 at the desktop default padding `[0.05, 0.05, 0.05, 0.35]`. -/
theorem padding_resolver_formulas_witness :
    scale ⟨0.05, 0.05, 0.05, 0.35⟩ =
      max (1 / (1 - 0.35 - 0.05)) (1 / (1 - 0.05 - 0.05)) ∧
    offsetX ⟨0.05, 0.05, 0.05, 0.35⟩ = (0.35 - 0.05) / 2 ∧
    offsetY ⟨0.05, 0.05, 0.05, 0.35⟩ = (0.05 - 0.05) / 2 :=
  padding_resolver_formulas ⟨0.05, 0.05, 0.05, 0.35⟩
    (by norm_num [visibleWidthFraction]) (by norm_num [visibleHeightFraction])

/-- JavaScript `Math.atan2 0 1 = 0`. -/
theorem atan2_zero_one : atan2 0 1 = 0 := by
  unfold atan2
  rw [if_pos (by norm_num : (0:ℝ) < 1)]
  simp

/-- The haversine distance from a point to itself is `0`. -/
theorem haversine_self (lat lng : ℝ) : haversine lat lng lat lng = 0 := by
  unfold haversine
  simp [atan2_zero_one]

/-- For a single-location list the bounding-box center is the location, so
the maximal angular distance is `0`. -/
theorem maxAngularDistance_single (l0 : Location) :
    maxAngularDistance (centerLat l0 [l0]) (centerLng l0 [l0]) [l0] = 0 := by
  have hlat : centerLat l0 [l0] = l0.lat := by
    simp only [centerLat, minLatOf, maxLatOf, List.foldl_cons, List.foldl_nil,
      min_self, max_self]
    ring
  have hlng : centerLng l0 [l0] = l0.lng := by
    simp only [centerLng, minLngOf, maxLngOf, List.foldl_cons, List.foldl_nil,
      min_self, max_self]
    ring
  simp only [maxAngularDistance, List.foldl_cons, List.foldl_nil, hlat, hlng,
    haversine_self, max_self]

/-- A single-location framing call returns range `0` for every padding. -/
theorem range_single (l0 : Location) (elevator : Elevator) (heading : ℝ)
    (p : Padding) :
    rangeOf (lookAtWithPadding [l0] elevator heading p) = some 0 := by
  simp only [lookAtWithPadding, rangeOf, maxAngularDistance_single]
  norm_num

/-- C5: the returned center is the bounding-box center plus the shift
obtained from `(x, y) = (-offsetX·fullHorizontalDistance,
offsetY·fullHorizontalDistance)` rotated by the heading and converted with
the 111000 m/degree approximation (longitude corrected by the cosine of the
center latitude). -/
theorem center_shift_formula (l0 : Location) (rest : List Location)
    (elevator : Elevator) (heading : ℝ) (p : Padding)
    (hw : 0 < visibleWidthFraction p) (hh : 0 < visibleHeightFraction p) :
    ∃ c, lookAtWithPadding (l0 :: rest) elevator heading p = .ok c ∧
      c.lat = centerLat l0 (l0 :: rest) +
        (-(offsetX p * fullHorizontalDistance l0 (l0 :: rest) p) *
            Real.sin (heading * degToRad) +
          offsetY p * fullHorizontalDistance l0 (l0 :: rest) p *
            Real.cos (heading * degToRad)) / 111000 ∧
      c.lng = centerLng l0 (l0 :: rest) +
        (-(offsetX p * fullHorizontalDistance l0 (l0 :: rest) p) *
            Real.cos (heading * degToRad) -
          offsetY p * fullHorizontalDistance l0 (l0 :: rest) p *
            Real.sin (heading * degToRad)) /
          (111000 * Real.cos (centerLat l0 (l0 :: rest) * degToRad)) := by
  refine ⟨_, rfl, ?_, ?_⟩ <;>
    simp only [fullHorizontalDistance] <;> ring

/-- Witness for C5 at a concrete input. -/
theorem center_shift_formula_witness :
    ∃ c, lookAtWithPadding [⟨0, 0, none⟩] elevEmpty 0 ⟨0.05, 0.05, 0.05, 0.35⟩ = .ok c ∧
      c.lat = centerLat ⟨0, 0, none⟩ [⟨0, 0, none⟩] +
        (-(offsetX ⟨0.05, 0.05, 0.05, 0.35⟩ *
              fullHorizontalDistance ⟨0, 0, none⟩ [⟨0, 0, none⟩] ⟨0.05, 0.05, 0.05, 0.35⟩) *
            Real.sin (0 * degToRad) +
          offsetY ⟨0.05, 0.05, 0.05, 0.35⟩ *
              fullHorizontalDistance ⟨0, 0, none⟩ [⟨0, 0, none⟩] ⟨0.05, 0.05, 0.05, 0.35⟩ *
            Real.cos (0 * degToRad)) / 111000 ∧
      c.lng = centerLng ⟨0, 0, none⟩ [⟨0, 0, none⟩] +
        (-(offsetX ⟨0.05, 0.05, 0.05, 0.35⟩ *
              fullHorizontalDistance ⟨0, 0, none⟩ [⟨0, 0, none⟩] ⟨0.05, 0.05, 0.05, 0.35⟩) *
            Real.cos (0 * degToRad) -
          offsetY ⟨0.05, 0.05, 0.05, 0.35⟩ *
              fullHorizontalDistance ⟨0, 0, none⟩ [⟨0, 0, none⟩] ⟨0.05, 0.05, 0.05, 0.35⟩ *
            Real.sin (0 * degToRad)) /
          (111000 * Real.cos (centerLat ⟨0, 0, none⟩ [⟨0, 0, none⟩] * degToRad)) :=
  center_shift_formula ⟨0, 0, none⟩ [] elevEmpty 0 ⟨0.05, 0.05, 0.05, 0.35⟩
    (by norm_num [visibleWidthFraction]) (by norm_num [visibleHeightFraction])

/-- C6: the returned pose has tilt exactly `60` and range
`sqrt(f² + (f / tan 60°)²)` for `f` the full horizontal distance
(maximal angular distance × 6371000 × 2 × scale); a single-point input has
angular distance `0` and range `0`. -/
theorem tilt_range_formula (l0 : Location) (rest : List Location)
    (elevator : Elevator) (heading : ℝ) (p : Padding)
    (hw : 0 < visibleWidthFraction p) (hh : 0 < visibleHeightFraction p) :
    ∃ c, lookAtWithPadding (l0 :: rest) elevator heading p = .ok c ∧
      c.tilt = 60 ∧
      c.range = Real.sqrt (fullHorizontalDistance l0 (l0 :: rest) p ^ 2 +
        (fullHorizontalDistance l0 (l0 :: rest) p / Real.tan (60 * degToRad)) ^ 2) ∧
      (rest = [] →
        maxAngularDistance (centerLat l0 [l0]) (centerLng l0 [l0]) [l0] = 0 ∧
        c.range = 0) := by
  refine ⟨_, rfl, rfl, ?_, ?_⟩
  · simp only [fullHorizontalDistance]
  · rintro rfl
    refine ⟨maxAngularDistance_single l0, ?_⟩
    dsimp only
    rw [maxAngularDistance_single]
    norm_num

/-- Witness for C6 at a concrete single-point input. -/
theorem tilt_range_formula_witness :
    ∃ c, lookAtWithPadding [⟨0, 0, none⟩] elevEmpty 0 ⟨0, 0, 0, 0⟩ = .ok c ∧
      c.tilt = 60 ∧
      c.range = Real.sqrt (fullHorizontalDistance ⟨0, 0, none⟩ [⟨0, 0, none⟩] ⟨0, 0, 0, 0⟩ ^ 2 +
        (fullHorizontalDistance ⟨0, 0, none⟩ [⟨0, 0, none⟩] ⟨0, 0, 0, 0⟩ /
          Real.tan (60 * degToRad)) ^ 2) ∧
      (([] : List Location) = [] →
        maxAngularDistance (centerLat ⟨0, 0, none⟩ [⟨0, 0, none⟩])
          (centerLng ⟨0, 0, none⟩ [⟨0, 0, none⟩]) [⟨0, 0, none⟩] = 0 ∧
        c.range = 0) :=
  tilt_range_formula ⟨0, 0, none⟩ [] elevEmpty 0 ⟨0, 0, 0, 0⟩
    (by norm_num [visibleWidthFraction]) (by norm_num [visibleHeightFraction])

/-- Folding the altitude accumulation: `sumAlt` equals
`length·A + Σ (alt ?? 0)`. -/
theorem foldl_alt_sum (A : ℝ) (locations : List Location) : ∀ init : ℝ,
    locations.foldl (fun s loc => s + (A + loc.alt.getD 0)) init =
      init + locations.length * A +
        (locations.map fun loc => loc.alt.getD 0).sum := by
  induction locations with
  | nil => intro init; simp
  | cons x xs ih =>
    intro init
    simp only [List.foldl_cons, List.length_cons, List.map_cons, List.sum_cons, ih]
    push_cast
    ring

/-- The altitude average of a non-empty list is the sampled elevation plus
the mean of the per-point altitude offsets. -/
theorem lookAtAltitude_eq (A : ℝ) (l0 : Location) (rest : List Location) :
    lookAtAltitude A (l0 :: rest) =
      A + ((l0 :: rest).map fun loc => loc.alt.getD 0).sum /
        ((l0 :: rest).length : ℝ) := by
  simp only [lookAtAltitude, foldl_alt_sum]
  rw [if_pos (by simp : 0 < (l0 :: rest).length)]
  have hn : ((l0 :: rest).length : ℝ) ≠ 0 := by
    have : (0 : ℝ) < ((l0 :: rest).length : ℝ) := by exact_mod_cast Nat.succ_pos rest.length
    linarith
  field_simp
  ring

/-- C7: when the elevation lookup throws or resolves with no results, a
camera pose is still returned, and its altitude is the mean of the per-point
altitude offsets alone (elevation contribution `0`). -/
theorem elevation_failure_fallback (l0 : Location) (rest : List Location)
    (elevator : Elevator) (heading : ℝ) (p : Padding)
    (he : elevator l0.lat l0.lng = .throws ∨ elevator l0.lat l0.lng = .resolves []) :
    ∃ c, lookAtWithPadding (l0 :: rest) elevator heading p = .ok c ∧
      c.altitude = ((l0 :: rest).map fun loc => loc.alt.getD 0).sum /
        ((l0 :: rest).length : ℝ) := by
  have hfe : fetchElevation l0.lat l0.lng elevator = 0 := by
    rcases he with h | h <;> simp [fetchElevation, h]
  refine ⟨_, rfl, ?_⟩
  dsimp only
  rw [hfe, lookAtAltitude_eq]
  ring

/-- Witness for C7 with an elevation lookup that resolves with no results. -/
theorem elevation_failure_fallback_witness :
    ∃ c, lookAtWithPadding [⟨0, 0, some 5⟩] elevEmpty 0 ⟨0, 0, 0, 0⟩ = .ok c ∧
      c.altitude = (([⟨0, 0, some 5⟩] : List Location).map fun loc => loc.alt.getD 0).sum /
        (([⟨0, 0, some 5⟩] : List Location).length : ℝ) :=
  elevation_failure_fallback ⟨0, 0, some 5⟩ [] elevEmpty 0 ⟨0, 0, 0, 0⟩ (Or.inr rfl)

/-- C9: the returned altitude is the elevation sampled once at the first
location plus the mean of the per-point altitude offsets, and the result
depends on the elevation service only through its response at the first
location's coordinates (it is never sampled per point). -/
theorem altitude_single_sample (l0 : Location) (rest : List Location)
    (elevator : Elevator) (heading : ℝ) (p : Padding) :
    ∃ c, lookAtWithPadding (l0 :: rest) elevator heading p = .ok c ∧
      c.altitude = fetchElevation l0.lat l0.lng elevator +
        ((l0 :: rest).map fun loc => loc.alt.getD 0).sum /
          ((l0 :: rest).length : ℝ) ∧
      ∀ elevator2 : Elevator, elevator2 l0.lat l0.lng = elevator l0.lat l0.lng →
        lookAtWithPadding (l0 :: rest) elevator2 heading p =
          lookAtWithPadding (l0 :: rest) elevator heading p := by
  refine ⟨_, rfl, ?_, ?_⟩
  · dsimp only
    rw [lookAtAltitude_eq]
  · intro elevator2 h2
    simp only [lookAtWithPadding, fetchElevation, h2]

/-- Witness for C9 at a concrete input. -/
theorem altitude_single_sample_witness :
    ∃ c, lookAtWithPadding [⟨0, 0, some 5⟩] elevEmpty 0 ⟨0, 0, 0, 0⟩ = .ok c ∧
      c.altitude = fetchElevation 0 0 elevEmpty +
        (([⟨0, 0, some 5⟩] : List Location).map fun loc => loc.alt.getD 0).sum /
          (([⟨0, 0, some 5⟩] : List Location).length : ℝ) ∧
      ∀ elevator2 : Elevator, elevator2 0 0 = elevEmpty 0 0 →
        lookAtWithPadding [⟨0, 0, some 5⟩] elevator2 0 ⟨0, 0, 0, 0⟩ =
          lookAtWithPadding [⟨0, 0, some 5⟩] elevEmpty 0 ⟨0, 0, 0, 0⟩ :=
  altitude_single_sample ⟨0, 0, some 5⟩ [] elevEmpty 0 ⟨0, 0, 0, 0⟩

/-- A `max`-fold never goes below its initial accumulator. -/
theorem le_foldl_max (f : Location → ℝ) (locations : List Location) :
    ∀ init : ℝ, init ≤ locations.foldl (fun m loc => max m (f loc)) init := by
  induction locations with
  | nil => intro init; simp
  | cons x xs ih =>
    intro init
    rw [List.foldl_cons]
    exact le_trans (le_max_left _ _) (ih _)

/-- The maximal angular distance is never negative. -/
theorem maxAngularDistance_nonneg (cLat cLng : ℝ) (locations : List Location) :
    0 ≤ maxAngularDistance cLat cLng locations :=
  le_foldl_max _ locations 0

/-- The earth radius constant is positive. -/
theorem earthRadius_pos : (0 : ℝ) < earthRadius := by norm_num [earthRadius]

/-- The slant-range expression is monotone in the horizontal distance. -/
theorem slant_le_slant (k : ℝ) {a b : ℝ} (ha : 0 ≤ a) (hab : a ≤ b) :
    Real.sqrt (a ^ 2 + (a / k) ^ 2) ≤ Real.sqrt (b ^ 2 + (b / k) ^ 2) := by
  apply Real.sqrt_le_sqrt
  have h1 : a ^ 2 ≤ b ^ 2 := by nlinarith
  have h2 : (a / k) ^ 2 ≤ (b / k) ^ 2 := by
    rw [div_pow, div_pow, div_eq_mul_inv, div_eq_mul_inv]
    exact mul_le_mul_of_nonneg_right h1 (inv_nonneg.mpr (sq_nonneg k))
  linarith

/-- The slant-range expression is strictly monotone in the horizontal
distance on nonnegative inputs. -/
theorem slant_lt_slant (k : ℝ) {a b : ℝ} (ha : 0 ≤ a) (hab : a < b) :
    Real.sqrt (a ^ 2 + (a / k) ^ 2) < Real.sqrt (b ^ 2 + (b / k) ^ 2) := by
  have h1 : a ^ 2 < b ^ 2 := by nlinarith
  have h2 : (a / k) ^ 2 ≤ (b / k) ^ 2 := by
    rw [div_pow, div_pow, div_eq_mul_inv, div_eq_mul_inv]
    exact mul_le_mul_of_nonneg_right h1.le (inv_nonneg.mpr (sq_nonneg k))
  apply Real.sqrt_lt_sqrt (by positivity)
  linarith

/-- C8 (amended): symmetric nonzero valid padding (`top = bottom = t`,
`left = right = l`) leaves the center unchanged relative to zero padding and
gives `scale > 1`; the range is at least the zero-padding range, and
strictly larger whenever the locations have positive angular extent (for a
single point both ranges are `0`). -/
theorem symmetric_padding_center_scale_range (l0 : Location) (rest : List Location)
    (elevator : Elevator) (heading : ℝ) (t l : ℝ) (ht : 0 < t) (hl : 0 < l)
    (hw : 0 < visibleWidthFraction ⟨t, l, t, l⟩)
    (hh : 0 < visibleHeightFraction ⟨t, l, t, l⟩) :
    ∃ c0 c, lookAtWithPadding (l0 :: rest) elevator heading ⟨0, 0, 0, 0⟩ = .ok c0 ∧
      lookAtWithPadding (l0 :: rest) elevator heading ⟨t, l, t, l⟩ = .ok c ∧
      c.lat = c0.lat ∧ c.lng = c0.lng ∧ 1 < scale ⟨t, l, t, l⟩ ∧
      c0.range ≤ c.range ∧
      (0 < maxAngularDistance (centerLat l0 (l0 :: rest)) (centerLng l0 (l0 :: rest))
          (l0 :: rest) → c0.range < c.range) := by
  have hscale : 1 < scale ⟨t, l, t, l⟩ := by
    have hvw : visibleWidthFraction ⟨t, l, t, l⟩ < 1 := by
      simp only [visibleWidthFraction]
      linarith
    exact lt_of_lt_of_le ((one_lt_div hw).mpr hvw) (le_max_left _ _)
  have hM : 0 ≤ maxAngularDistance (centerLat l0 (l0 :: rest))
      (centerLng l0 (l0 :: rest)) (l0 :: rest) := maxAngularDistance_nonneg _ _ _
  have ha : 0 ≤ maxAngularDistance (centerLat l0 (l0 :: rest))
      (centerLng l0 (l0 :: rest)) (l0 :: rest) * earthRadius * 2 := by
    have := earthRadius_pos
    nlinarith
  refine ⟨_, _, rfl, rfl, ?_, ?_, hscale, ?_, ?_⟩
  · simp only [offsetX, offsetY]
    ring
  · simp only [offsetX, offsetY]
    ring
  · dsimp only
    rw [scale_zeroPad, mul_one]
    exact slant_le_slant _ ha (le_mul_of_one_le_right ha hscale.le)
  · intro hMpos
    dsimp only
    rw [scale_zeroPad, mul_one]
    have hapos : 0 < maxAngularDistance (centerLat l0 (l0 :: rest))
        (centerLng l0 (l0 :: rest)) (l0 :: rest) * earthRadius * 2 := by
      have := earthRadius_pos
      nlinarith
    exact slant_lt_slant _ ha (lt_mul_of_one_lt_right hapos hscale)

/-- Witness for the amended C8 at a concrete input. -/
theorem symmetric_padding_center_scale_range_witness :
    ∃ c0 c, lookAtWithPadding [⟨0, 0, none⟩] elevEmpty 0 ⟨0, 0, 0, 0⟩ = .ok c0 ∧
      lookAtWithPadding [⟨0, 0, none⟩] elevEmpty 0 ⟨0.1, 0.1, 0.1, 0.1⟩ = .ok c ∧
      c.lat = c0.lat ∧ c.lng = c0.lng ∧ 1 < scale ⟨0.1, 0.1, 0.1, 0.1⟩ ∧
      c0.range ≤ c.range ∧
      (0 < maxAngularDistance (centerLat ⟨0, 0, none⟩ [⟨0, 0, none⟩])
          (centerLng ⟨0, 0, none⟩ [⟨0, 0, none⟩]) [⟨0, 0, none⟩] →
        c0.range < c.range) :=
  symmetric_padding_center_scale_range ⟨0, 0, none⟩ [] elevEmpty 0 0.1 0.1
    (by norm_num) (by norm_num)
    (by norm_num [visibleWidthFraction]) (by norm_num [visibleHeightFraction])

/-- Counterexample to C8 as stated: for a single point the symmetric-padding
range equals the zero-padding range (both are `0`), so it is not strictly
larger. -/
theorem symmetric_padding_range_cex :
    rangeOf (lookAtWithPadding [⟨0, 0, none⟩] elevEmpty 0 ⟨0.1, 0.1, 0.1, 0.1⟩) =
      rangeOf (lookAtWithPadding [⟨0, 0, none⟩] elevEmpty 0 ⟨0, 0, 0, 0⟩) ∧
    rangeOf (lookAtWithPadding [⟨0, 0, none⟩] elevEmpty 0 ⟨0, 0, 0, 0⟩) = some 0 := by
  constructor
  · rw [range_single, range_single]
  · exact range_single _ _ _ _

/-- C10: `frameEntities` with an empty entity list returns without error,
without consulting the elevation service, and without any camera animation;
with a non-empty list it flies the camera with range
`lookAtWithPadding`'s range plus 1000, heading 0 and roll 0. -/
theorem frameEntities_spec (p : Padding) (elevator : Elevator) :
    (∀ elevator2 : Elevator, frameEntities [] p elevator2 = .ok none) ∧
    ∀ entities : List (ℝ × ℝ), entities ≠ [] →
      ∃ c, lookAtWithPadding (entities.map fun pos => { lat := pos.1, lng := pos.2 })
          elevator 0 p = .ok c ∧ c.heading = 0 ∧
        frameEntities entities p elevator =
          .ok (some { centerLat := c.lat, centerLng := c.lng,
                      centerAltitude := c.altitude, range := c.range + 1000,
                      heading := 0, tilt := c.tilt, roll := 0 }) := by
  constructor
  · intro elevator2
    simp [frameEntities]
  · intro entities hne
    match entities with
    | [] => exact absurd rfl hne
    | e0 :: rest =>
      refine ⟨_, rfl, rfl, ?_⟩
      simp only [frameEntities, List.map_cons]
      rw [if_neg (by simp)]
      simp only [lookAtWithPadding]

/-- Witness for C10 at a concrete one-entity input. -/
theorem frameEntities_spec_witness :
    ∃ c, lookAtWithPadding (([((0 : ℝ), (0 : ℝ))]).map fun pos => { lat := pos.1, lng := pos.2 })
        elevEmpty 0 ⟨0, 0, 0, 0⟩ = .ok c ∧ c.heading = 0 ∧
      frameEntities [((0 : ℝ), (0 : ℝ))] ⟨0, 0, 0, 0⟩ elevEmpty =
        .ok (some { centerLat := c.lat, centerLng := c.lng,
                    centerAltitude := c.altitude, range := c.range + 1000,
                    heading := 0, tilt := c.tilt, roll := 0 }) :=
  (frameEntities_spec ⟨0, 0, 0, 0⟩ elevEmpty).2 [((0 : ℝ), (0 : ℝ))] (by simp)

end Framing
